import Mathlib

/-!
# Megumi storefront — formal model of the record store and its handlers

Shallow embedding of `server.js` (the HTTP server with in-memory fallback
store).  We model the transient (in-memory) backend, which is the code that
lives in this repository: `memoryStore = { users: [], products: [] }` together
with the handlers `handleRegister`, `handleLogin`, `handleListProducts`,
`handleGetProduct`, `handleCreateProduct`, `handleUpdateProduct`,
`handleDeleteProduct`, and the backend-resolution function `connectDb`.

Modelling conventions:
* JavaScript string truthiness: for the string-valued request fields the falsy
  values are `undefined` and `""`; a field that may be absent is an
  `Option String` and `truthyS` is its truthiness.  Where the source
  destructures a field that the handler then requires (email, password) we use
  a plain `String`, `""` standing for both falsy forms, since the handler
  treats them identically.
* `new Date()` timestamps are explicit `Nat` arguments (`now`).
* `crypto.randomBytes` / `crypto.randomUUID` outputs are explicit arguments.
* `crypto.pbkdf2` is an uninterpreted parameter
  `kdf : String → String → Nat → String` (password, hex salt, iterations ↦
  hex derived key); theorems that need collision-freedom assume injectivity in
  the password argument.
* JS `Number(...)` is modelled on the decimal fragment by `jsNumber`;
  `JsNum.nan` models `NaN`.
* The module flag `useMemoryStore` is passed to `handleRegister` explicitly:
  on the memory path (`connectDb` returned null) it is `false` in the
  driver-absent configuration — the repository's default, where `connectDb`
  early-returns before its catch block — and `true` only after a failed
  connection attempt.  The other handlers' memory paths do not read the
  flag, so they take no such argument.
-/

namespace Megumi

/-- Constant `ITERATIONS = 120000` from the source. -/
def ITERATIONS : Nat := 120000

/-- JS number value: either NaN or a rational (we model only finite decimal
parses, which is all the handlers produce). -/
inductive JsNum where
  | nan : JsNum
  | num : ℚ → JsNum
deriving DecidableEq, Repr

/-- Value of a nonempty all-digit character list, `none` otherwise. -/
def digitsVal (cs : List Char) : Option Nat :=
  match cs with
  | [] => none
  | _ =>
    cs.foldl
      (fun acc? c => acc?.bind fun acc =>
        if c.isDigit then some (acc * 10 + (c.toNat - 48)) else none)
      (some 0)

/-- Leading/trailing-whitespace trim (JS `Number` ignores surrounding
whitespace), structurally on the character list. -/
def trimWs (s : String) : List Char :=
  ((s.data.dropWhile Char.isWhitespace).reverse.dropWhile Char.isWhitespace).reverse

/-- JS `Number(s)` restricted to the decimal fragment (optional sign, integer
part, optional fraction).  `Number("") = 0`; anything unparseable is `NaN`.
Exponents, hex literals and `Infinity` are outside what this service's callers
send and are mapped to `NaN`; no claim depends on them. -/
def jsNumber (s : String) : JsNum :=
  let t := trimWs s
  if t = [] then JsNum.num 0
  else
    let (sign, body) : ℚ × List Char :=
      match t with
      | '-' :: rest => (-1, rest)
      | '+' :: rest => (1, rest)
      | cs => (1, cs)
    match body.span (fun c => c ≠ '.') with
    | (intPart, []) =>
      match digitsVal intPart with
      | some n => JsNum.num (sign * n)
      | none => JsNum.nan
    | (intPart, _ :: fracPart) =>
      if fracPart.any (fun c => c = '.') then JsNum.nan
      else if intPart = [] ∧ fracPart = [] then JsNum.nan
      else
        let i? := if intPart = [] then some 0 else digitsVal intPart
        let f? := if fracPart = [] then some 0 else digitsVal fracPart
        match i?, f? with
        | some i, some f =>
          JsNum.num (sign * ((i : ℚ) + (f : ℚ) / ((10 : ℚ) ^ fracPart.length)))
        | _, _ => JsNum.nan

/-- Truthiness of an optional string: `undefined` and `""` are falsy. -/
def truthyS (o : Option String) : Bool :=
  match o with
  | none => false
  | some s => s ≠ ""

/-- JS `x || ''` for an optional string field. -/
def jsOrEmpty (o : Option String) : String :=
  match o with
  | none => ""
  | some s => if s = "" then "" else s

/-- A user document as built by `handleRegister`:
`{ email, password: hex(derivedKey), salt: hex(salt), iterations, createdAt }`. -/
structure User where
  email : String
  password : String
  salt : String
  iterations : Nat
  createdAt : Nat
deriving DecidableEq, Repr

/-- A product document as built by `handleCreateProduct` (memory path adds
`_id`): `{ _id, name, category, price, description, imageUrl, createdAt }`,
with `updatedAt` added by `handleUpdateProduct`. -/
structure Product where
  pid : String
  name : String
  category : String
  price : Option JsNum
  description : String
  imageUrl : String
  createdAt : Nat
  updatedAt : Option Nat
deriving DecidableEq, Repr

/-- Model of `const memoryStore = { users: [], products: [] }`. -/
structure Store where
  users : List User
  products : List Product
deriving DecidableEq, Repr

/-- The empty in-memory store, the process's initial state. -/
def Store.empty : Store := ⟨[], []⟩

/-- Handler `handleRegister` (memory path).  `useMemoryStore` is the module
flag of the same name: the memory path is taken whenever `connectDb` returns
null, which happens both with the mongodb driver absent (the repository's
default — the flag then stays `false`, because `connectDb` early-returns
before its catch block) and after a failed connection (the catch sets the
flag to `true`).  The source's in-memory duplicate check is guarded by
`if (useMemoryStore)`, so with the driver absent it is skipped; the
Mongo-side check `if (users)` is also skipped since `database` is null.
`kdf` stands for `crypto.pbkdf2`; `salt` is the hex encoding of the random
bytes; `now` is `new Date()`.  Returns the HTTP status and message from the
corresponding `sendJson` call, paired with the store after the call. -/
def handleRegister (kdf : String → String → Nat → String)
    (useMemoryStore : Bool) (s : Store)
    (email password : String) (salt : String) (now : Nat) :
    (Nat × String) × Store :=
  if email = "" ∨ password = "" then
    ((400, "Email and password are required."), s)
  else if useMemoryStore && (s.users.find? (fun u => u.email == email)).isSome then
    ((409, "User already exists."), s)
  else
    let derivedKey := kdf password salt ITERATIONS
    let userDoc : User :=
      { email := email, password := derivedKey, salt := salt,
        iterations := ITERATIONS, createdAt := now }
    ((201, "Registration successful."), { s with users := s.users ++ [userDoc] })

/-- Handler `handleLogin` (memory path).  `user.iterations || ITERATIONS` is the
JS numeric-falsy fallback: `0` falls back to the process default. -/
def handleLogin (kdf : String → String → Nat → String) (s : Store)
    (email password : String) : Nat × String :=
  if email = "" ∨ password = "" then
    (400, "Email and password are required.")
  else
    match s.users.find? (fun u => u.email == email) with
    | none => (401, "Invalid credentials.")
    | some user =>
      let derivedKey :=
        kdf password user.salt
          (if user.iterations ≠ 0 then user.iterations else ITERATIONS)
      if derivedKey ≠ user.password then (401, "Invalid credentials.")
      else (200, "Login successful.")

/-- The `?category=` query parameter: absent or a string.  The filter
predicate is `category ? p.category === category : true` — `""` is falsy. -/
def keepProduct (category : Option String) (p : Product) : Bool :=
  if truthyS category then p.category == jsOrEmpty category else true

/-- Handler `handleListProducts` (memory path):
`memoryStore.products.filter(...).sort((a, b) => b.createdAt - a.createdAt)`.
The JS sort is stable (V8 TimSort), comparator descending by `createdAt`;
`List.mergeSort` with `b.createdAt ≤ a.createdAt` is the same stable
descending sort.  The store itself is not mutated (`filter` copies). -/
def handleListProducts (s : Store) (category : Option String) : List Product :=
  (s.products.filter (keepProduct category)).mergeSort
    (fun a b => b.createdAt ≤ a.createdAt)

/-- Handler `handleGetProduct` (memory path):
`memoryStore.products.find((p) => p._id === id)`; 404 when absent. -/
def handleGetProduct (s : Store) (id : String) : Nat × Option Product :=
  match s.products.find? (fun p => p.pid == id) with
  | none => (404, none)
  | some product => (200, some product)

/-- The body of `POST /api/products` as destructured by `handleCreateProduct`:
`{ name, category, price, description, imageUrl }`, each possibly absent. -/
structure CreateFields where
  name : Option String
  category : Option String
  price : Option String
  description : Option String
  imageUrl : Option String
deriving DecidableEq, Repr

/-- Document built by `handleCreateProduct` (the source's `productDoc` plus the
memory-path `_id`, the variable `memoryDoc`).  Here `id` is `crypto.randomUUID()`,
`now` is `new Date()`.  The document is
`{ name, category, price: price ? Number(price) : null, description: description || '',
imageUrl: imageUrl || '', createdAt }` plus `_id`; the response is 201 with the
document, or 400 `'Name and category are required.'` when `!name || !category`. -/
def memoryDoc (f : CreateFields) (id : String) (now : Nat) : Product :=
  { pid := id,
    name := jsOrEmpty f.name,
    category := jsOrEmpty f.category,
    price := if truthyS f.price then some (jsNumber (jsOrEmpty f.price)) else none,
    description := jsOrEmpty f.description,
    imageUrl := jsOrEmpty f.imageUrl,
    createdAt := now,
    updatedAt := none }

def handleCreateProduct (s : Store) (f : CreateFields) (id : String) (now : Nat) :
    (Nat × Option Product) × Store :=
  if ¬ truthyS f.name ∨ ¬ truthyS f.category then ((400, none), s)
  else
    ((201, some (memoryDoc f id now)),
      { s with products := s.products ++ [memoryDoc f id now] })

/-- The body of `PUT /api/products/:id`.  Per the spec's external interface
(§6) the consumed named fields are `name, category, price, description,
imageUrl`; a supplied key overwrites the stored one by the JS spread
`{ ...products[idx], ...updates, updatedAt: new Date() }`.  A supplied
`price` is stored as sent (no `Number(...)` parse on update). -/
structure UpdateFields where
  name : Option String
  category : Option String
  price : Option JsNum
  description : Option String
  imageUrl : Option String
deriving DecidableEq, Repr

/-- Spread merge `{ ...p, ...u, updatedAt: now }`: supplied keys of `u`
overwrite `p`. -/
def mergeProduct (p : Product) (u : UpdateFields) (now : Nat) : Product :=
  { p with
    name := u.name.getD p.name,
    category := u.category.getD p.category,
    price := match u.price with | some q => some q | none => p.price,
    description := u.description.getD p.description,
    imageUrl := u.imageUrl.getD p.imageUrl,
    updatedAt := some now }

/-- Model of `findIndex((p) => p._id === id)` followed by in-place replacement of that
entry: returns the merged record and the new list, or `none` when no entry
matches. -/
def updateFirst (ps : List Product) (id : String) (u : UpdateFields) (now : Nat) :
    Option (Product × List Product) :=
  match ps with
  | [] => none
  | p :: rest =>
    if p.pid == id then
      let newP := mergeProduct p u now
      some (newP, newP :: rest)
    else
      match updateFirst rest id u now with
      | none => none
      | some (q, rest') => some (q, p :: rest')

/-- Handler `handleUpdateProduct` (memory path): 404 `'Product not found.'` when the
id matches nothing, otherwise 200 with the merged record stored in place. -/
def handleUpdateProduct (s : Store) (id : String) (u : UpdateFields) (now : Nat) :
    (Nat × Option Product) × Store :=
  match updateFirst s.products id u now with
  | none => ((404, none), s)
  | some (q, ps') => ((200, some q), { s with products := ps' })

/-- Handler `handleDeleteProduct` (memory path):
`memoryStore.products = memoryStore.products.filter((p) => p._id !== id)`;
404 when the length did not change, else 200 `'Product removed.'`. -/
def handleDeleteProduct (s : Store) (id : String) : (Nat × String) × Store :=
  let before := s.products.length
  let s' : Store := { s with products := s.products.filter (fun p => p.pid != id) }
  if s'.products.length = before then ((404, "Product not found."), s')
  else ((200, "Product removed."), s')

/-!
## Backend resolution (`connectDb`) under concurrency

`connectDb` runs on the Node event loop; each `await` is a suspension point
at which another request's `connectDb` call may run.  We split the body into
its atomic segments between suspension points:

* entry segment — `if (useMemoryStore || !mongoDriverAvailable) return null;
  if (db) return db; client = new MongoClient(mongoUri); await client.connect()`
  (starting one connection attempt and suspending);
* resume segment — on success `db = client.db(); ...; return db`, on failure
  the `catch` block `useMemoryStore = true; return null`.

The module-level mutable state is `db` (modelled as the flag `dbSet`),
`useMemoryStore`, plus a count of connection attempts started.
-/

/-- The module-level mutable state read and written by `connectDb`. -/
structure ConnGlobal where
  dbSet : Bool
  useMemoryStore : Bool
  attempts : Nat
deriving DecidableEq, Repr

/-- Where one in-flight `connectDb` call stands: not yet run, suspended at
`await client.connect()`, or returned (`durable := true` for `db`,
`durable := false` for `null`, i.e. the in-memory backend). -/
inductive ConnTask where
  | start : ConnTask
  | awaiting : ConnTask
  | done : Bool → ConnTask
deriving DecidableEq, Repr

/-- The entry segment of `connectDb`. -/
def connStep1 (g : ConnGlobal) (mongoDriverAvailable : Bool) : ConnGlobal × ConnTask :=
  if g.useMemoryStore ∨ ¬ mongoDriverAvailable then (g, ConnTask.done false)
  else if g.dbSet then (g, ConnTask.done true)
  else ({ g with attempts := g.attempts + 1 }, ConnTask.awaiting)

/-- The resume segment of `connectDb`: the outcome of `await client.connect()`
for this task's client. -/
def connStep2 (g : ConnGlobal) (success : Bool) : ConnGlobal × ConnTask :=
  if success then ({ g with dbSet := true }, ConnTask.done true)
  else ({ g with useMemoryStore := true }, ConnTask.done false)

/-- Process start: `db` unset, `useMemoryStore = false`, no attempts. -/
def connInit : ConnGlobal := ⟨false, false, 0⟩

/-!
## Concrete values used to instantiate the theorems
-/

/-- A concrete key-derivation function (injective in the password) standing in
for `crypto.pbkdf2` when a theorem is evaluated at a concrete input. -/
def kdfId : String → String → Nat → String := fun p _ _ => p

/-- A concrete key-derivation function that exposes the iteration count it was
called with, used to observe which count `handleLogin` derives with. -/
def kdfIter : String → String → Nat → String := fun _ _ n => toString n

/-- A sample stored product. -/
def sampleProduct : Product :=
  { pid := "i1", name := "Shirt", category := "boys",
    price := none, description := "", imageUrl := "",
    createdAt := 5, updatedAt := none }

/-- A sample store holding just `sampleProduct`. -/
def sampleStore : Store := ⟨[], [sampleProduct]⟩

/-- A create body supplying only name and category. -/
def createShirt : CreateFields :=
  { name := some "Shirt", category := some "boys", price := none,
    description := none, imageUrl := none }

/-- A create body whose `price` key is present but holds `""`. -/
def createEmptyPrice : CreateFields :=
  { name := some "a", category := some "b", price := some "",
    description := none, imageUrl := none }

/-- An update body supplying an empty `name`. -/
def badUpdate : UpdateFields :=
  { name := some "", category := none, price := none,
    description := none, imageUrl := none }

/-- The store after creating `createShirt` in the empty store. -/
def storeAfterCreate : Store :=
  (handleCreateProduct Store.empty createShirt "i1" 0).2

/-- The store after then applying `badUpdate` to that product. -/
def storeAfterBadUpdate : Store :=
  (handleUpdateProduct storeAfterCreate "i1" badUpdate 1).2

/-- A stored user whose `iterations` field is `0` (JS-falsy). -/
def userIterZero : User :=
  { email := "a@x.com", password := kdfIter "pw" "s0" 0, salt := "s0",
    iterations := 0, createdAt := 0 }

/-- A stored user with the current default iteration count. -/
def userDefaultIter : User :=
  { email := "a@x.com", password := kdfId "pw" "s0" ITERATIONS, salt := "s0",
    iterations := ITERATIONS, createdAt := 0 }

/-!
## Reachability through the catalog operations
-/

/-- Store states reachable from the empty store through the catalog
operations (`handleCreateProduct`, `handleUpdateProduct`,
`handleDeleteProduct`) with arbitrary request bodies. -/
inductive Reachable : Store → Prop where
  | empty : Reachable Store.empty
  | create (s : Store) (f : CreateFields) (id : String) (now : Nat) :
      Reachable s → Reachable (handleCreateProduct s f id now).2
  | update (s : Store) (id : String) (u : UpdateFields) (now : Nat) :
      Reachable s → Reachable (handleUpdateProduct s id u now).2
  | delete (s : Store) (id : String) :
      Reachable s → Reachable (handleDeleteProduct s id).2

/-- Reachability restricted to update bodies that never supply an empty
`name` or `category` (the handler itself does not validate updates). -/
inductive ReachableV : Store → Prop where
  | empty : ReachableV Store.empty
  | create (s : Store) (f : CreateFields) (id : String) (now : Nat) :
      ReachableV s → ReachableV (handleCreateProduct s f id now).2
  | update (s : Store) (id : String) (u : UpdateFields) (now : Nat) :
      u.name ≠ some "" → u.category ≠ some "" →
      ReachableV s → ReachableV (handleUpdateProduct s id u now).2
  | delete (s : Store) (id : String) :
      ReachableV s → ReachableV (handleDeleteProduct s id).2

/-!
## Helper lemmas
-/

/-- Registering a non-empty email/password into a store with no user of that
email succeeds and appends the new user document — under either value of the
`useMemoryStore` flag, since the guarded duplicate check finds nothing. -/
theorem register_fresh_state (kdf : String → String → Nat → String) (b : Bool)
    (s : Store) (e p salt : String) (now : Nat)
    (he : e ≠ "") (hp : p ≠ "")
    (hnone : s.users.find? (fun u => u.email == e) = none) :
    handleRegister kdf b s e p salt now =
      ((201, "Registration successful."),
        { s with users := s.users ++
          [{ email := e, password := kdf p salt ITERATIONS, salt := salt,
             iterations := ITERATIONS, createdAt := now }] }) := by
  unfold handleRegister
  rw [if_neg (by simp [he, hp])]
  rw [if_neg (by simp [hnone])]

/-- Login against a store whose user list is `us ++ [u]` where no user of
`us` has email `e` and `u.email = e`: the outcome is decided by comparing
the derived key against `u.password`. -/
theorem login_appended (kdf : String → String → Nat → String) (s : Store)
    (e p' : String) (u : User)
    (he : e ≠ "") (hp' : p' ≠ "")
    (hfind : s.users.find? (fun v => v.email == e) = some u)
    (hiter : u.iterations = ITERATIONS) :
    handleLogin kdf s e p' =
      (if kdf p' u.salt ITERATIONS = u.password then (200, "Login successful.")
       else (401, "Invalid credentials.")) := by
  unfold handleLogin
  rw [if_neg (by simp [he, hp'])]
  rw [hfind]
  by_cases h : kdf p' u.salt ITERATIONS = u.password
  · simp [hiter, h, ITERATIONS]
  · simp [hiter, h, ITERATIONS]

/-- Claim C1 (amended): for a user registered by `handleRegister(e, p)` with
non-empty fields into a store with no prior user of email `e` (under either
value of the `useMemoryStore` flag), and any non-empty password `p'`:
the registration returns 201 and `handleLogin(e, p')` succeeds iff `p' = p`
(given the key derivation is injective in the password); a wrong non-empty
password and a login with non-empty credentials for an email with no
registered user both yield the same 401 `InvalidCredentials` response.
(Both restrictions are forced by the counterexample: empty credentials yield
the 400 missing-field response, and with the driver absent a duplicate
registration succeeds, after which the later registrant's own password no
longer logs in.) -/
theorem login_matches_registration (kdf : String → String → Nat → String)
    (hinj : ∀ sa n, Function.Injective (fun q => kdf q sa n))
    (b : Bool) (s : Store) (e p salt : String) (now : Nat)
    (he : e ≠ "") (hp : p ≠ "")
    (hnone : s.users.find? (fun u => u.email == e) = none) :
    (handleRegister kdf b s e p salt now).1.1 = 201 ∧
    (∀ p', p' ≠ "" →
      ((handleLogin kdf (handleRegister kdf b s e p salt now).2 e p' =
          (200, "Login successful.")) ↔ p' = p) ∧
      (p' ≠ p →
        handleLogin kdf (handleRegister kdf b s e p salt now).2 e p' =
          (401, "Invalid credentials."))) ∧
    (∀ e' q, e' ≠ "" → q ≠ "" →
      ((handleRegister kdf b s e p salt now).2.users.find?
          (fun u => u.email == e')) = none →
      handleLogin kdf (handleRegister kdf b s e p salt now).2 e' q =
        (401, "Invalid credentials.")) := by
  have hs' := register_fresh_state kdf b s e p salt now he hp hnone
  refine ⟨by rw [hs'], ?_, ?_⟩
  · intro p' hp'
    have hfind : (handleRegister kdf b s e p salt now).2.users.find?
        (fun v => v.email == e) = some
          { email := e, password := kdf p salt ITERATIONS, salt := salt,
            iterations := ITERATIONS, createdAt := now } := by
      rw [hs']
      simp [List.find?_append, hnone, List.find?]
    have hlog := login_appended kdf (handleRegister kdf b s e p salt now).2 e p'
      _ he hp' hfind rfl
    have hkey : kdf p' salt ITERATIONS = kdf p salt ITERATIONS ↔ p' = p := by
      constructor
      · intro h; exact hinj salt ITERATIONS h
      · intro h; rw [h]
    constructor
    · rw [hlog]
      constructor
      · intro h
        split at h
        · next hcond => exact hkey.1 hcond
        · next => simp at h
      · intro h
        rw [if_pos (hkey.2 h)]
    · intro hne
      rw [hlog, if_neg (fun hcond => hne (hkey.1 hcond))]
  · intro e' q he' hq hfind'
    unfold handleLogin
    rw [if_neg (by simp [he', hq])]
    rw [hfind']

/-- Claim C1, counterexample — two concrete refutations of the unrestricted
claim.  First: after registering `"a@x.com"/"pw"`, a login attempt with the
empty password is wrong (`"" ≠ "pw"`) yet fails with the 400 missing-field
response, not the 401 `InvalidCredentials` response the claim requires for
every unsuccessful login.  Second: with the mongodb driver absent
(`useMemoryStore` stays `false`, the repository's default), registering
`"a@x.com"` a second time with password `"p2"` also returns 201 — no
duplicate check runs — and the second registrant's own password `"p2"`,
supplied at registration, then fails to log in, because login compares
against the first stored user. -/
theorem login_iff_counterexample :
    (handleRegister kdfId false Store.empty "a@x.com" "pw" "s0" 0).1.1 = 201 ∧
    ("" : String) ≠ "pw" ∧
    handleLogin kdfId
      (handleRegister kdfId false Store.empty "a@x.com" "pw" "s0" 0).2
      "a@x.com" "" = (400, "Email and password are required.") ∧
    (handleRegister kdfId false
      (handleRegister kdfId false Store.empty "a@x.com" "p1" "s1" 0).2
      "a@x.com" "p2" "s2" 1).1.1 = 201 ∧
    ("p2" : String) ≠ "p1" ∧
    handleLogin kdfId
      (handleRegister kdfId false
        (handleRegister kdfId false Store.empty "a@x.com" "p1" "s1" 0).2
        "a@x.com" "p2" "s2" 1).2
      "a@x.com" "p2" = (401, "Invalid credentials.") := by
  decide

/-- Witness for `login_matches_registration` at a concrete input. -/
theorem login_matches_registration_witness :
    (handleRegister kdfId true Store.empty "a@x.com" "pw" "s0" 0).1.1 = 201 ∧
    ((handleLogin kdfId
        (handleRegister kdfId true Store.empty "a@x.com" "pw" "s0" 0).2
        "a@x.com" "pw" = (200, "Login successful.")) ↔ ("pw" : String) = "pw") ∧
    handleLogin kdfId
      (handleRegister kdfId true Store.empty "a@x.com" "pw" "s0" 0).2
      "a@x.com" "zz" = (401, "Invalid credentials.") := by
  have h := login_matches_registration kdfId (fun _ _ _ _ hq => hq) true
    Store.empty "a@x.com" "pw" "s0" 0 (by decide) (by decide) (by decide)
  exact ⟨h.1, (h.2.1 "pw" (by decide)).1, (h.2.1 "zz" (by decide)).2 (by decide)⟩

/-- Claim C2 — evaluation at the failing input.  With the mongodb driver
absent (the repository's default configuration), `connectDb` early-returns
without ever setting `useMemoryStore`, so the source's guarded in-memory
duplicate check is skipped and the Mongo-side check is skipped too
(`database` is null): both registrations of `"a@x.com"` return 201 and the
store ends with two users of that email, contradicting the claim's
success-then-DuplicateEmail and its exactly-one-user postcondition.  The last
conjunct shows the check the source does contain firing as the claim expects
once `useMemoryStore` is `true` (the fallen-back configuration), evidencing
that the guard, not the check, is the slip. -/
theorem register_twice_no_driver_duplicates :
    (handleRegister kdfId false Store.empty "a@x.com" "p1" "s1" 0).1.1 = 201 ∧
    (handleRegister kdfId false
      (handleRegister kdfId false Store.empty "a@x.com" "p1" "s1" 0).2
      "a@x.com" "p2" "s2" 1).1.1 = 201 ∧
    ((handleRegister kdfId false
      (handleRegister kdfId false Store.empty "a@x.com" "p1" "s1" 0).2
      "a@x.com" "p2" "s2" 1).2.users.filter
        (fun u => u.email == "a@x.com")).length = 2 ∧
    (handleRegister kdfId true
      (handleRegister kdfId true Store.empty "a@x.com" "p1" "s1" 0).2
      "a@x.com" "p2" "s2" 1).1 = (409, "User already exists.") := by
  decide

/-- Whatever the status, after `handleDeleteProduct` the product table is the
filtered table (the source assigns the filtered array before branching). -/
theorem delete_products_eq (s : Store) (id : String) :
    (handleDeleteProduct s id).2.products =
      s.products.filter (fun p => p.pid != id) := by
  unfold handleDeleteProduct
  dsimp only
  split <;> rfl

/-- Unfolding of `handleDeleteProduct` with its `let`s zeta-reduced. -/
theorem handleDeleteProduct_eq (s : Store) (id : String) :
    handleDeleteProduct s id =
      if (s.products.filter (fun p => p.pid != id)).length = s.products.length
      then ((404, "Product not found."),
        { s with products := s.products.filter (fun p => p.pid != id) })
      else ((200, "Product removed."),
        { s with products := s.products.filter (fun p => p.pid != id) }) := rfl

/-- Claim C3: each mutating handler is atomic on the in-memory backend: on a
non-success status the store is exactly what it was before the call; after a
successful delete of `id`, `get(id)` fails with the 404 not-found response;
a successful create with a fresh id is visible to a subsequent get. -/
theorem mutations_atomic (kdf : String → String → Nat → String) :
    (∀ b s e p salt now, (handleRegister kdf b s e p salt now).1.1 ≠ 201 →
      (handleRegister kdf b s e p salt now).2 = s) ∧
    (∀ s f id now, (handleCreateProduct s f id now).1.1 ≠ 201 →
      (handleCreateProduct s f id now).2 = s) ∧
    (∀ s id u now, (handleUpdateProduct s id u now).1.1 ≠ 200 →
      (handleUpdateProduct s id u now).2 = s) ∧
    (∀ s id, (handleDeleteProduct s id).1.1 ≠ 200 →
      (handleDeleteProduct s id).2 = s) ∧
    (∀ s id, (handleDeleteProduct s id).1.1 = 200 →
      handleGetProduct (handleDeleteProduct s id).2 id = (404, none)) ∧
    (∀ s f id now p, (handleCreateProduct s f id now).1 = (201, some p) →
      id ∉ s.products.map Product.pid →
      handleGetProduct (handleCreateProduct s f id now).2 id = (200, some p)) := by
  refine ⟨?_, ?_, ?_, ?_, ?_, ?_⟩
  · intro b s e p salt now h
    by_cases h1 : e = "" ∨ p = ""
    · simp [handleRegister, h1]
    · by_cases h2 : (b && (s.users.find? (fun u => u.email == e)).isSome) = true
      · simp [handleRegister, h1, h2]
      · exfalso; exact h (by simp [handleRegister, h1, h2])
  · intro s f id now h
    cases hn : truthyS f.name with
    | false => simp [handleCreateProduct, hn]
    | true =>
      cases hc : truthyS f.category with
      | false => simp [handleCreateProduct, hn, hc]
      | true => exact absurd (by simp [handleCreateProduct, hn, hc]) h
  · intro s id u now h
    cases hu : updateFirst s.products id u now with
    | none => simp [handleUpdateProduct, hu]
    | some r => exact absurd (by simp [handleUpdateProduct, hu]) h
  · intro s id h
    rw [handleDeleteProduct_eq] at h ⊢
    by_cases hl : (s.products.filter (fun p => p.pid != id)).length =
        s.products.length
    · rw [if_pos hl]
      have hfil := List.Sublist.eq_of_length (List.filter_sublist _) hl
      show ({ s with products := s.products.filter (fun p => p.pid != id) }) = s
      rw [hfil]
    · rw [if_neg hl] at h
      exact absurd rfl h
  · intro s id _
    have hfind : ((handleDeleteProduct s id).2.products.find?
        (fun p => p.pid == id)) = none := by
      apply List.find?_eq_none.mpr
      intro x hx
      rw [delete_products_eq] at hx
      have := (List.mem_filter.mp hx).2
      simp only [bne_iff_ne, ne_eq, decide_eq_true_eq] at this ⊢
      simpa using this
    simp [handleGetProduct, hfind]
  · intro s f id now p hcre hid
    have hfind0 : s.products.find? (fun q => q.pid == id) = none := by
      apply List.find?_eq_none.mpr
      intro x hx
      simp only [beq_iff_eq]
      intro hxe
      exact hid (List.mem_map.mpr ⟨x, hx, hxe⟩)
    cases hn : truthyS f.name with
    | false => simp [handleCreateProduct, hn] at hcre
    | true =>
      cases hc : truthyS f.category with
      | false => simp [handleCreateProduct, hn, hc] at hcre
      | true =>
        have hstep : handleCreateProduct s f id now =
            ((201, some (memoryDoc f id now)),
              { s with products := s.products ++ [memoryDoc f id now] }) := by
          simp [handleCreateProduct, hn, hc]
        rw [hstep] at hcre
        have hp : memoryDoc f id now = p := by
          simpa using congrArg Prod.snd hcre
        rw [hstep]
        have hpid : (memoryDoc f id now).pid = id := rfl
        have hppid : (p.pid == id) = true := by rw [← hp]; simp [hpid]
        simp [handleGetProduct, List.find?_append, hfind0, List.find?, hpid, hp,
          hppid]

/-- Witness for `mutations_atomic` at a concrete input: deleting the sample
product then getting it yields the 404 response. -/
theorem mutations_atomic_witness :
    handleGetProduct (handleDeleteProduct sampleStore "i1").2 "i1" = (404, none) :=
  (mutations_atomic kdfId).2.2.2.2.1 sampleStore "i1" (by decide)

/-- A truthy optional string is a non-empty string after `x || ''`. -/
theorem jsOrEmpty_ne_of_truthy {o : Option String} (h : truthyS o = true) :
    jsOrEmpty o ≠ "" := by
  cases o with
  | none => simp [truthyS] at h
  | some v =>
    simp [truthyS] at h
    simp [jsOrEmpty, h]

/-- Every member of the list produced by `updateFirst` is either an original
member or the merge of an original member with the update body. -/
theorem updateFirst_mem {id : String} {u : UpdateFields} {now : Nat}
    {ps ps' : List Product} {q : Product}
    (h : updateFirst ps id u now = some (q, ps')) :
    ∀ x ∈ ps', x ∈ ps ∨ ∃ p ∈ ps, x = mergeProduct p u now := by
  induction ps generalizing ps' q with
  | nil => simp [updateFirst] at h
  | cons p rest ih =>
    unfold updateFirst at h
    split at h
    · simp only [Option.some.injEq, Prod.mk.injEq] at h
      obtain ⟨hq, hps'⟩ := h
      subst hps'
      intro x hx
      rcases List.mem_cons.mp hx with hx1 | hx2
      · exact Or.inr ⟨p, List.mem_cons_self p rest, hx1⟩
      · exact Or.inl (List.mem_cons_of_mem p hx2)
    · cases hrec : updateFirst rest id u now with
      | none => rw [hrec] at h; simp at h
      | some r =>
        obtain ⟨q', rest'⟩ := r
        rw [hrec] at h
        simp only [Option.some.injEq, Prod.mk.injEq] at h
        obtain ⟨hq, hps'⟩ := h
        subst hps'
        intro x hx
        rcases List.mem_cons.mp hx with hx1 | hx2
        · exact Or.inl (hx1 ▸ List.mem_cons_self p rest)
        · rcases ih hrec x hx2 with hin | ⟨pp, hpp, hxm⟩
          · exact Or.inl (List.mem_cons_of_mem p hin)
          · exact Or.inr ⟨pp, List.mem_cons_of_mem p hpp, hxm⟩

/-- Claim C4 (amended): every state reachable from the empty store through
create, delete, and updates that do not supply an empty `name` or `category`
has only products with non-empty `name` and `category`.  (The unrestricted
claim fails: `handleUpdateProduct` does not validate its fields.) -/
theorem reachable_products_nonempty (s : Store) (h : ReachableV s) :
    ∀ p ∈ s.products, p.name ≠ "" ∧ p.category ≠ "" := by
  induction h with
  | empty => simp [Store.empty]
  | create s f id now _ ih =>
    intro p hp
    cases hn : truthyS f.name with
    | false =>
      rw [show (handleCreateProduct s f id now).2 = s by
        simp [handleCreateProduct, hn]] at hp
      exact ih p hp
    | true =>
      cases hc : truthyS f.category with
      | false =>
        rw [show (handleCreateProduct s f id now).2 = s by
          simp [handleCreateProduct, hn, hc]] at hp
        exact ih p hp
      | true =>
        rw [show (handleCreateProduct s f id now).2 =
            { s with products := s.products ++ [memoryDoc f id now] } by
          simp [handleCreateProduct, hn, hc]] at hp
        rcases List.mem_append.mp hp with hold | hnew
        · exact ih p hold
        · have hpe : p = memoryDoc f id now := by simpa using hnew
          subst hpe
          exact ⟨jsOrEmpty_ne_of_truthy hn, jsOrEmpty_ne_of_truthy hc⟩
  | update s id u now hun huc _ ih =>
    intro p hp
    cases hu : updateFirst s.products id u now with
    | none =>
      rw [show (handleUpdateProduct s id u now).2 = s by
        simp [handleUpdateProduct, hu]] at hp
      exact ih p hp
    | some r =>
      obtain ⟨q, ps'⟩ := r
      rw [show (handleUpdateProduct s id u now).2 = { s with products := ps' } by
        simp [handleUpdateProduct, hu]] at hp
      rcases updateFirst_mem hu p hp with hold | ⟨pp, hpp, hmerge⟩
      · exact ih p hold
      · subst hmerge
        obtain ⟨hppn, hppc⟩ := ih pp hpp
        constructor
        · show (mergeProduct pp u now).name ≠ ""
          unfold mergeProduct
          cases hun' : u.name with
          | none => simpa using hppn
          | some v =>
            have : v ≠ "" := fun hv => hun (by rw [hun', hv])
            simpa using this
        · show (mergeProduct pp u now).category ≠ ""
          unfold mergeProduct
          cases huc' : u.category with
          | none => simpa using hppc
          | some v =>
            have : v ≠ "" := fun hv => huc (by rw [huc', hv])
            simpa using this
  | delete s id _ ih =>
    intro p hp
    rw [delete_products_eq] at hp
    exact ih p (List.mem_filter.mp hp).1

/-- Claim C4, counterexample: from the empty store, create a valid product and
then update it with `name: ""` — a reachable state whose stored product has an
empty name. -/
theorem update_breaks_name_invariant :
    Reachable storeAfterBadUpdate ∧
    storeAfterBadUpdate.products.map Product.name = [""] :=
  ⟨Reachable.update storeAfterCreate "i1" badUpdate 1
      (Reachable.create Store.empty createShirt "i1" 0 Reachable.empty),
    by decide⟩

/-- Witness for `reachable_products_nonempty` at a concrete reachable state. -/
theorem reachable_products_nonempty_witness :
    (memoryDoc createShirt "i1" 0).name ≠ "" ∧
    (memoryDoc createShirt "i1" 0).category ≠ "" :=
  reachable_products_nonempty storeAfterCreate
    (ReachableV.create Store.empty createShirt "i1" 0 ReachableV.empty)
    (memoryDoc createShirt "i1" 0) (by decide)

/-- JS `v || ''` on a present string is the string itself. -/
theorem jsOrEmpty_some (v : String) : jsOrEmpty (some v) = v := by
  by_cases hv : v = "" <;> simp [jsOrEmpty, hv]

/-- Claim C5 (amended): a create call with truthy `name` and `category` (and a
fresh id) succeeds; the stored record is returned again by a subsequent get
and has every supplied field equal to the supplied value, `price` equal to the
numeric parse of the supplied price when the price is present and non-empty
and absent when the price is absent or the empty string, `description` and
`imageUrl` defaulting to the empty string, `createdAt` populated and
`updatedAt` absent; a create with `name` or `category` missing fails with the
400 missing-field response. -/
theorem create_fields_spec :
    (∀ s f id now, truthyS f.name = true → truthyS f.category = true →
      id ∉ s.products.map Product.pid →
      ∃ doc,
        (handleCreateProduct s f id now).1 = (201, some doc) ∧
        handleGetProduct (handleCreateProduct s f id now).2 id = (200, some doc) ∧
        (∀ v, f.name = some v → doc.name = v) ∧
        (∀ v, f.category = some v → doc.category = v) ∧
        (∀ v, f.description = some v → doc.description = v) ∧
        (f.description = none → doc.description = "") ∧
        (∀ v, f.imageUrl = some v → doc.imageUrl = v) ∧
        (f.imageUrl = none → doc.imageUrl = "") ∧
        (∀ v, f.price = some v → v ≠ "" → doc.price = some (jsNumber v)) ∧
        ((f.price = none ∨ f.price = some "") → doc.price = none) ∧
        doc.createdAt = now ∧ doc.updatedAt = none) ∧
    (∀ s f id now, f.name = none ∨ f.category = none →
      handleCreateProduct s f id now = ((400, none), s)) := by
  constructor
  · intro s f id now hn hc hid
    have hfind0 : s.products.find? (fun q => q.pid == id) = none := by
      apply List.find?_eq_none.mpr
      intro x hx
      simp only [beq_iff_eq]
      intro hxe
      exact hid (List.mem_map.mpr ⟨x, hx, hxe⟩)
    refine ⟨memoryDoc f id now, by simp [handleCreateProduct, hn, hc], ?_,
      ?_, ?_, ?_, ?_, ?_, ?_, ?_, ?_, rfl, rfl⟩
    · rw [show (handleCreateProduct s f id now).2 =
          { s with products := s.products ++ [memoryDoc f id now] } by
        simp [handleCreateProduct, hn, hc]]
      have hpid : (memoryDoc f id now).pid = id := rfl
      simp [handleGetProduct, List.find?_append, hfind0, List.find?, hpid]
    · intro v hv; simp [memoryDoc, hv, jsOrEmpty_some]
    · intro v hv; simp [memoryDoc, hv, jsOrEmpty_some]
    · intro v hv; simp [memoryDoc, hv, jsOrEmpty_some]
    · intro hv; simp [memoryDoc, hv, jsOrEmpty]
    · intro v hv; simp [memoryDoc, hv, jsOrEmpty_some]
    · intro hv; simp [memoryDoc, hv, jsOrEmpty]
    · intro v hv hne
      simp [memoryDoc, hv, truthyS, hne, jsOrEmpty_some]
    · intro hpn
      rcases hpn with h | h <;> simp [memoryDoc, h, truthyS]
  · intro s f id now hmiss
    rcases hmiss with h | h <;> simp [handleCreateProduct, h, truthyS]

/-- Claim C5, counterexample: a create call whose `price` key is present with
value `""` succeeds but stores `price` as absent (null), while the numeric
parse of the supplied price is `Number("") = 0`, not absent. -/
theorem create_present_empty_price_not_parsed :
    (handleCreateProduct Store.empty createEmptyPrice "i1" 0).1.1 = 201 ∧
    createEmptyPrice.price.isSome = true ∧
    jsNumber "" = JsNum.num 0 ∧
    (handleCreateProduct Store.empty createEmptyPrice "i1" 0).2.products.map
      Product.price = [none] := by
  decide

/-- Witness for `create_fields_spec` at a concrete input. -/
theorem create_fields_spec_witness :
    ∃ doc,
      (handleCreateProduct Store.empty createShirt "i9" 7).1 = (201, some doc) ∧
      handleGetProduct (handleCreateProduct Store.empty createShirt "i9" 7).2 "i9" =
        (200, some doc) ∧
      (∀ v, createShirt.name = some v → doc.name = v) ∧
      (∀ v, createShirt.category = some v → doc.category = v) ∧
      (∀ v, createShirt.description = some v → doc.description = v) ∧
      (createShirt.description = none → doc.description = "") ∧
      (∀ v, createShirt.imageUrl = some v → doc.imageUrl = v) ∧
      (createShirt.imageUrl = none → doc.imageUrl = "") ∧
      (∀ v, createShirt.price = some v → v ≠ "" → doc.price = some (jsNumber v)) ∧
      ((createShirt.price = none ∨ createShirt.price = some "") → doc.price = none) ∧
      doc.createdAt = 7 ∧ doc.updatedAt = none :=
  create_fields_spec.1 Store.empty createShirt "i9" 7 (by decide) (by decide)
    (by decide)

/-- When the first product matching `id` is `P`, `updateFirst` merges exactly
`P`, and the merged record is again the first match in the new list. -/
theorem updateFirst_of_find? {ps : List Product} {id : String} {P : Product}
    (u : UpdateFields) (now : Nat)
    (h : ps.find? (fun p => p.pid == id) = some P) :
    ∃ ps', updateFirst ps id u now = some (mergeProduct P u now, ps') ∧
      ps'.find? (fun p => p.pid == id) = some (mergeProduct P u now) := by
  induction ps with
  | nil => simp at h
  | cons p rest ih =>
    by_cases hpid : (p.pid == id) = true
    · have hP : p = P := by
        rw [@List.find?_cons_of_pos _ (fun q => q.pid == id) p rest hpid] at h
        simpa using h
      subst hP
      refine ⟨mergeProduct p u now :: rest, ?_, ?_⟩
      · unfold updateFirst
        rw [if_pos hpid]
      · exact @List.find?_cons_of_pos _ (fun q => q.pid == id)
          (mergeProduct p u now) rest hpid
    · rw [@List.find?_cons_of_neg _ (fun q => q.pid == id) p rest hpid] at h
      obtain ⟨ps'', h1, h2⟩ := ih h
      refine ⟨p :: ps'', ?_, ?_⟩
      · unfold updateFirst
        rw [if_neg hpid, h1]
      · rw [@List.find?_cons_of_neg _ (fun q => q.pid == id) p ps'' hpid]
        exact h2

/-- When no product matches `id`, `updateFirst` returns `none`. -/
theorem updateFirst_eq_none {ps : List Product} {id : String}
    (u : UpdateFields) (now : Nat)
    (h : ps.find? (fun p => p.pid == id) = none) :
    updateFirst ps id u now = none := by
  induction ps with
  | nil => rfl
  | cons p rest ih =>
    have hpid : ¬ (p.pid == id) = true :=
      List.find?_eq_none.mp h p (List.mem_cons_self p rest)
    unfold updateFirst
    rw [if_neg hpid, ih (List.find?_eq_none.mpr
      (fun x hx => List.find?_eq_none.mp h x (List.mem_cons_of_mem p hx)))]

/-- Claim C6: updating a stored product (the one `get(id)` returns) yields a
record agreeing with the update body on every supplied key, with `updatedAt`
newly stamped, and agreeing with the previously stored record on every other
field, its identifier and `createdAt` included; the merged record is what a
subsequent get returns; updating an id matching no record fails with the 404
response and changes nothing. -/
theorem update_fields_spec :
    (∀ s id u now P, handleGetProduct s id = (200, some P) →
      ∃ Q, (handleUpdateProduct s id u now).1 = (200, some Q) ∧
        handleGetProduct (handleUpdateProduct s id u now).2 id = (200, some Q) ∧
        Q.pid = P.pid ∧ Q.createdAt = P.createdAt ∧ Q.updatedAt = some now ∧
        (∀ v, u.name = some v → Q.name = v) ∧
        (u.name = none → Q.name = P.name) ∧
        (∀ v, u.category = some v → Q.category = v) ∧
        (u.category = none → Q.category = P.category) ∧
        (∀ v, u.price = some v → Q.price = some v) ∧
        (u.price = none → Q.price = P.price) ∧
        (∀ v, u.description = some v → Q.description = v) ∧
        (u.description = none → Q.description = P.description) ∧
        (∀ v, u.imageUrl = some v → Q.imageUrl = v) ∧
        (u.imageUrl = none → Q.imageUrl = P.imageUrl)) ∧
    (∀ s id u now, handleGetProduct s id = (404, none) →
      handleUpdateProduct s id u now = ((404, none), s)) := by
  constructor
  · intro s id u now P hget
    have hfind : s.products.find? (fun p => p.pid == id) = some P := by
      unfold handleGetProduct at hget
      cases hf : s.products.find? (fun p => p.pid == id) with
      | none => rw [hf] at hget; simp at hget
      | some q =>
        rw [hf] at hget
        simp only [Prod.mk.injEq, Option.some.injEq] at hget
        rw [hget.2]
    obtain ⟨ps', h1, h2⟩ := updateFirst_of_find? u now hfind
    refine ⟨mergeProduct P u now, by simp [handleUpdateProduct, h1], ?_,
      rfl, rfl, rfl, ?_, ?_, ?_, ?_, ?_, ?_, ?_, ?_, ?_, ?_⟩
    · rw [show (handleUpdateProduct s id u now).2 = { s with products := ps' } by
        simp [handleUpdateProduct, h1]]
      simp [handleGetProduct, h2]
    · intro v hv; simp [mergeProduct, hv]
    · intro hv; simp [mergeProduct, hv]
    · intro v hv; simp [mergeProduct, hv]
    · intro hv; simp [mergeProduct, hv]
    · intro v hv; simp [mergeProduct, hv]
    · intro hv; simp [mergeProduct, hv]
    · intro v hv; simp [mergeProduct, hv]
    · intro hv; simp [mergeProduct, hv]
    · intro v hv; simp [mergeProduct, hv]
    · intro hv; simp [mergeProduct, hv]
  · intro s id u now hget
    have hfind : s.products.find? (fun p => p.pid == id) = none := by
      unfold handleGetProduct at hget
      cases hf : s.products.find? (fun p => p.pid == id) with
      | none => rfl
      | some q => rw [hf] at hget; simp at hget
    simp [handleUpdateProduct, updateFirst_eq_none u now hfind]

/-- The update body corresponding to the spec's `update(id, price: 9.99)`
example. -/
def priceUpdate : UpdateFields :=
  { name := none, category := none, price := some (JsNum.num (999 / 100)),
    description := none, imageUrl := none }

/-- Witness for `update_fields_spec` at a concrete input. -/
theorem update_fields_spec_witness :
    ∃ Q, (handleUpdateProduct sampleStore "i1" priceUpdate 9).1 = (200, some Q) ∧
      handleGetProduct (handleUpdateProduct sampleStore "i1" priceUpdate 9).2 "i1" =
        (200, some Q) ∧
      Q.pid = sampleProduct.pid ∧ Q.createdAt = sampleProduct.createdAt ∧
      Q.updatedAt = some 9 ∧
      (∀ v, priceUpdate.name = some v → Q.name = v) ∧
      (priceUpdate.name = none → Q.name = sampleProduct.name) ∧
      (∀ v, priceUpdate.category = some v → Q.category = v) ∧
      (priceUpdate.category = none → Q.category = sampleProduct.category) ∧
      (∀ v, priceUpdate.price = some v → Q.price = some v) ∧
      (priceUpdate.price = none → Q.price = sampleProduct.price) ∧
      (∀ v, priceUpdate.description = some v → Q.description = v) ∧
      (priceUpdate.description = none → Q.description = sampleProduct.description) ∧
      (∀ v, priceUpdate.imageUrl = some v → Q.imageUrl = v) ∧
      (priceUpdate.imageUrl = none → Q.imageUrl = sampleProduct.imageUrl) :=
  update_fields_spec.1 sampleStore "i1" priceUpdate 9 sampleProduct (by decide)

/-- A truthy (non-empty) category filter keeps exactly the products whose
category equals it. -/
theorem keepProduct_some_ne {c : String} (hc : c ≠ "") :
    keepProduct (some c) = fun p => p.category == c := by
  funext p
  simp [keepProduct, truthyS, hc, jsOrEmpty_some]

/-- The list handler returns a permutation of the kept products, sorted
newest-created-first. -/
theorem list_perm_sorted (s : Store) (c? : Option String) :
    (handleListProducts s c?).Perm (s.products.filter (keepProduct c?)) ∧
    (handleListProducts s c?).Pairwise (fun a b => b.createdAt ≤ a.createdAt) := by
  constructor
  · exact List.mergeSort_perm _ _
  · have htrans : ∀ a b c : Product, decide (b.createdAt ≤ a.createdAt) = true →
        decide (c.createdAt ≤ b.createdAt) = true →
        decide (c.createdAt ≤ a.createdAt) = true := by
      intro a b c h1 h2
      simp only [decide_eq_true_eq] at h1 h2 ⊢
      omega
    have htotal : ∀ a b : Product,
        (decide (b.createdAt ≤ a.createdAt) || decide (a.createdAt ≤ b.createdAt))
          = true := by
      intro a b
      simp only [Bool.or_eq_true, decide_eq_true_eq]
      omega
    have h := @List.sorted_mergeSort Product
      (fun a b => decide (b.createdAt ≤ a.createdAt)) htrans htotal
      (s.products.filter (keepProduct c?))
    exact h.imp (fun hab => of_decide_eq_true hab)

/-- Claim C7 (amended): for every non-empty category filter `c`, list returns
exactly the stored products whose category equals `c`, and list with no
filter returns all stored products, in both cases ordered
newest-created-first by `createdAt`.  (The empty-string filter is excluded:
the handler treats it as no filter.) -/
theorem list_filter_exact_sorted :
    (∀ s c, c ≠ "" →
      (handleListProducts s (some c)).Perm
        (s.products.filter (fun p => p.category == c)) ∧
      (handleListProducts s (some c)).Pairwise
        (fun a b => b.createdAt ≤ a.createdAt)) ∧
    (∀ s, (handleListProducts s none).Perm s.products ∧
      (handleListProducts s none).Pairwise
        (fun a b => b.createdAt ≤ a.createdAt)) := by
  constructor
  · intro s c hc
    have h := list_perm_sorted s (some c)
    rw [keepProduct_some_ne hc] at h
    exact h
  · have hk : keepProduct none = fun _ => true := by
      funext p; simp [keepProduct, truthyS]
    intro s
    have h := list_perm_sorted s none
    rw [hk, List.filter_true] at h
    exact h

/-- Claim C7, counterexample: with the empty string as the category filter,
list returns the sample product, whose category is `"boys"`, not the empty
list of products whose category equals `""`. -/
theorem list_empty_string_filter_cex :
    handleListProducts sampleStore (some "") = [sampleProduct] ∧
    sampleProduct.category ≠ "" ∧
    sampleStore.products.filter (fun p => p.category == "") = [] := by
  refine ⟨?_, by decide, by decide⟩
  unfold handleListProducts
  rw [show sampleStore.products.filter (keepProduct (some "")) = [sampleProduct]
    by decide]
  exact List.mergeSort_singleton sampleProduct

/-- Witness for `list_filter_exact_sorted` at a concrete input. -/
theorem list_filter_exact_sorted_witness :
    (handleListProducts sampleStore (some "boys")).Perm
      (sampleStore.products.filter (fun p => p.category == "boys")) ∧
    (handleListProducts sampleStore (some "boys")).Pairwise
      (fun a b => b.createdAt ≤ a.createdAt) :=
  list_filter_exact_sorted.1 sampleStore "boys" (by decide)

/-- Claim C8 (amended): for a stored user with a non-zero `iterations` value,
login derives the comparison key with exactly the stored count — whatever it
is, not the process-wide default; a JS-falsy (zero/absent) stored count falls
back to `ITERATIONS`, which is what the counterexample exhibits. -/
theorem login_derives_with_stored_iterations
    (kdf : String → String → Nat → String) (s : Store) (e p : String) (u : User)
    (he : e ≠ "") (hp : p ≠ "")
    (hu : s.users.find? (fun v => v.email == e) = some u)
    (hn : u.iterations ≠ 0) :
    handleLogin kdf s e p =
      (if kdf p u.salt u.iterations = u.password then (200, "Login successful.")
       else (401, "Invalid credentials.")) := by
  unfold handleLogin
  rw [if_neg (by simp [he, hp])]
  rw [hu]
  by_cases h : kdf p u.salt u.iterations = u.password <;>
    simp [if_pos hn, h]

/-- Claim C8, counterexample: a stored user whose `iterations` field is `0`.
The stored count would re-derive the stored password (first conjunct), but
`user.iterations || ITERATIONS` replaces the stored `0` by the process-wide
default `120000`, so the login fails. -/
theorem login_iter_zero_uses_default :
    kdfIter "pw" userIterZero.salt userIterZero.iterations =
      userIterZero.password ∧
    handleLogin kdfIter ⟨[userIterZero], []⟩ "a@x.com" "pw" =
      (401, "Invalid credentials.") := by
  decide

/-- Witness for `login_derives_with_stored_iterations` at a concrete input. -/
theorem login_derives_with_stored_iterations_witness :
    handleLogin kdfId ⟨[userDefaultIter], []⟩ "a@x.com" "pw" =
      (if kdfId "pw" userDefaultIter.salt userDefaultIter.iterations =
          userDefaultIter.password
       then (200, "Login successful.") else (401, "Invalid credentials.")) :=
  login_derives_with_stored_iterations kdfId ⟨[userDefaultIter], []⟩ "a@x.com"
    "pw" userDefaultIter (by decide) (by decide) (by decide) (by decide)

/-- Claim C9: the code resolves the backend with no mutual-exclusion guard.
In the interleaving in which a second request enters `connectDb` while the
first is suspended at `await client.connect()`, both tasks pass the `if (db)`
check: two connection attempts are started (`attempts = 2`, not exactly one),
and when the first attempt fails while the second succeeds, the two callers
observe different backends (transient vs durable) in one process lifetime. -/
theorem connectDb_race_two_attempts :
    (connStep1 connInit true).2 = ConnTask.awaiting ∧
    (connStep1 (connStep1 connInit true).1 true).2 = ConnTask.awaiting ∧
    (connStep1 (connStep1 connInit true).1 true).1.attempts = 2 ∧
    (connStep2 (connStep1 (connStep1 connInit true).1 true).1 false).2 =
      ConnTask.done false ∧
    (connStep2 (connStep2 (connStep1 (connStep1 connInit true).1 true).1
        false).1 true).2 = ConnTask.done true := by
  decide

/-- Claim C10: the empty-string category filter is treated exactly like no
filter: the handler returns the same list, and that list contains precisely
the stored products, regardless of their categories. -/
theorem list_empty_filter_is_all :
    (∀ s, handleListProducts s (some "") = handleListProducts s none) ∧
    (∀ s p, p ∈ handleListProducts s (some "") ↔ p ∈ s.products) := by
  have hk : keepProduct (some "") = keepProduct none := by
    funext p
    simp [keepProduct, truthyS]
  constructor
  · intro s
    unfold handleListProducts
    rw [hk]
  · intro s p
    unfold handleListProducts
    rw [List.mem_mergeSort, List.mem_filter]
    simp [keepProduct, truthyS]

end Megumi
